import Mathlib

/-!
Shallow embedding of the live interpretation session engine
(`websocket-server.js`): the `InterpreterSession` class, the connection
message handler, the VAD grace-delay timer, the playback timer, and the
periodic idle-cleanup sweep, together with the language-detection and
target-language helpers.

The JavaScript event loop is modelled as an explicit step function over a
system state `Sys`.  Each asynchronous suspension point of
`processAccumulatedAudio` (the Whisper transcription `await`, the Google
Translate `await`, and the OpenAI fallback `await`) becomes an in-flight
record in `Sys.inFlight`; the environment resumes a suspended invocation by
a `transcribeDone` / `primaryDone` / `fallbackDone` action carrying the
provider's response.  Everything up to the next `await` runs atomically,
exactly as in the single-threaded event loop.  The model covers one session
object per trace (a repeated `start` is a no-op here; in the source it
allocates a fresh session object, which is a different session).
-/

namespace Verblizr

/-- Session lifecycle states.  The source initialises to `'idle'` and only
ever assigns `'listening'`, `'translating'`, `'playing'`, `'paused'`;
`stopped` appears in the spec's data model but is never assigned by the
source (`stop()` only clears `isActive`). -/
inductive SState
  | idle
  | listening
  | translating
  | playing
  | paused
  | stopped
deriving DecidableEq

/-- Outbound protocol messages (`send` payloads). Message text fields that
the claims never inspect (error strings) are kept abstract. -/
inductive Msg
  | status (s : SState)
  | partialText (text : String)
  | final (asr mt lid : String)
  | error (message : String)
deriving DecidableEq

/-- Normalized provider-error classification from the spec's §4.4 taxonomy;
the source's catch blocks never inspect the classification. -/
inductive PErr
  | transient
  | quota
  | auth
  | invalidInput
deriving DecidableEq

/-- One buffered audio chunk: `{ base64Pcm, samples, timestamp }`; the raw
bytes are irrelevant to the claims, so only the sample count and arrival
timestamp are kept. -/
structure Chunk where
  samples : Nat
  timestamp : Nat
deriving DecidableEq

/-- `session.config = { from, to, mode, sampleRate }`. -/
structure SessCfg where
  fromLang : String
  toLang : String
  mode : String
  sampleRate : Nat
deriving DecidableEq

/-- The suspension point at which an in-flight `processAccumulatedAudio`
invocation is parked, with the data its continuation closes over. -/
inductive FlushPhase
  | awaitTranscribe (segment : List Chunk)
  | awaitPrimary (transcript detected target : String)
  | awaitFallback (transcript detected target : String)
deriving DecidableEq

/-- One in-flight `processAccumulatedAudio` invocation. -/
structure Flush where
  fid : Nat
  phase : FlushPhase
deriving DecidableEq

/-- The whole observable state: the session object's fields, the registry
entry, the pending timers, the outbound message log, and the set of
in-flight pipeline invocations.  `primaryCalls` / `fallbackCalls` count
translation-provider invocations. -/
structure Sys where
  started : Bool
  cfg : SessCfg
  state : SState
  audioBuffer : List Chunk
  vadState : String
  isActive : Bool
  wsOpen : Bool
  inRegistry : Bool
  lastActivity : Nat
  now : Nat
  outLog : List Msg
  inFlight : List Flush
  nextFid : Nat
  vadTimers : Nat
  playTimers : Nat
  primaryCalls : Nat
  fallbackCalls : Nat
deriving DecidableEq

/-! ## Language helpers (source lines 114-191) -/

/-- The whitespace set of JavaScript `String.prototype.trim`
(ECMAScript WhiteSpace plus LineTerminator code points). -/
def isJsWhitespaceChar (c : Char) : Bool :=
  decide (c.toNat = 0x9 ∨ c.toNat = 0xA ∨ c.toNat = 0xB ∨ c.toNat = 0xC ∨
    c.toNat = 0xD ∨ c.toNat = 0x20 ∨ c.toNat = 0xA0 ∨ c.toNat = 0x1680 ∨
    (0x2000 ≤ c.toNat ∧ c.toNat ≤ 0x200A) ∨ c.toNat = 0x2028 ∨
    c.toNat = 0x2029 ∨ c.toNat = 0x202F ∨ c.toNat = 0x205F ∨
    c.toNat = 0x3000 ∨ c.toNat = 0xFEFF)

/-- `text.trim()` on the underlying character list. -/
def jsTrimList (l : List Char) : List Char :=
  ((l.dropWhile isJsWhitespaceChar).reverse.dropWhile isJsWhitespaceChar).reverse

/-- JavaScript `text.trim()`. -/
def jsTrim (s : String) : String :=
  String.mk (jsTrimList s.data)

/-- `/[\u{lo}-\u{hi}]/.test(s)`: some character of `s` lies in the
inclusive code-point range. -/
def hasCharInRange (s : String) (lo hi : Nat) : Bool :=
  s.data.any (fun c => decide (lo ≤ c.toNat ∧ c.toNat ≤ hi))

/-- `arabicPattern = /[؀-ۿ]/`. -/
def arabicPattern (s : String) : Bool := hasCharInRange s 0x600 0x6FF

/-- `urduPattern = /[؀-ۿ]/` — the source uses the identical
range ("Similar to Arabic"). -/
def urduPattern (s : String) : Bool := hasCharInRange s 0x600 0x6FF

/-- `chinesePattern = /[一-鿿]/`. -/
def chinesePattern (s : String) : Bool := hasCharInRange s 0x4e00 0x9fff

/-- `japanesePattern = /[぀-ゟ゠-ヿ]/`. -/
def japanesePattern (s : String) : Bool :=
  hasCharInRange s 0x3040 0x309f || hasCharInRange s 0x30a0 0x30ff

/-- `koreanPattern = /[가-힯]/`. -/
def koreanPattern (s : String) : Bool := hasCharInRange s 0xac00 0xd7af

/-- `russianPattern = /[Ѐ-ӿ]/`. -/
def russianPattern (s : String) : Bool := hasCharInRange s 0x400 0x4FF

/-- `detectLanguageFromText` (source lines 146-166). -/
def detectLanguageFromText (text : String) : String :=
  if text = "" ∨ jsTrim text = "" then "en"
  else if arabicPattern text then "ar"
  else if urduPattern text then "ur"
  else if chinesePattern text then "zh"
  else if japanesePattern text then "ja"
  else if koreanPattern text then "ko"
  else if russianPattern text then "ru"
  else "en"

/-- `getTargetLanguage` (source lines 171-191). -/
def getTargetLanguage (detectedLang : String) (cfg : SessCfg) : String :=
  if cfg.mode = "alternate" then
    if cfg.fromLang = "auto" ∧ cfg.toLang = "auto" then
      if detectedLang = "en" then "es" else "en"
    else if cfg.fromLang = "auto" then cfg.toLang
    else if cfg.toLang = "auto" then
      if cfg.fromLang ≠ detectedLang then cfg.fromLang else "en"
    else
      if detectedLang = cfg.fromLang then cfg.toLang else cfg.fromLang
  else
    if cfg.toLang = "auto" then "en" else cfg.toLang

/-! ## Session primitives (source lines 197-251) -/

/-- `send(message)`: delivered, and `lastActivity` refreshed, only when the
socket is open and the session is still active. -/
def sendMsg (sys : Sys) (m : Msg) : Sys :=
  if sys.wsOpen = true ∧ sys.isActive = true then
    { sys with outLog := sys.outLog ++ [m], lastActivity := sys.now }
  else sys

/-- `updateState(newState)`: assigns `state`, then emits a status
notification through `send`. -/
def updateState (sys : Sys) (s : SState) : Sys :=
  sendMsg { sys with state := s } (Msg.status s)

/-- `sendFinal(asr, translation, detectedLang)`. -/
def sendFinal (sys : Sys) (asr mt lid : String) : Sys :=
  sendMsg sys (Msg.final asr mt lid)

/-- `sendError(message)`. -/
def sendError (sys : Sys) (message : String) : Sys :=
  sendMsg sys (Msg.error message)

/-- `audioBuffer.reduce((sum, chunk) => sum + chunk.samples, 0)`. -/
def totalSamples (buf : List Chunk) : Nat :=
  (buf.map Chunk.samples).sum

/-- `this.config?.sampleRate || 16000` (0 is falsy in JavaScript). -/
def effRate (cfg : SessCfg) : Nat :=
  if cfg.sampleRate = 0 then 16000 else cfg.sampleRate

/-! ## In-flight invocation bookkeeping -/

/-- Look up the suspension phase of in-flight invocation `n`. -/
def findPhase : List Flush → Nat → Option FlushPhase
  | [], _ => none
  | f :: fs, n => if f.fid = n then some f.phase else findPhase fs n

/-- Move in-flight invocation `n` to a new suspension phase. -/
def setPhaseL : List Flush → Nat → FlushPhase → List Flush
  | [], _, _ => []
  | f :: fs, n, ph =>
    if f.fid = n then { f with phase := ph } :: fs else f :: setPhaseL fs n ph

/-- Remove in-flight invocation `n` (its async function returned). -/
def removeFlushL : List Flush → Nat → List Flush
  | [], _ => []
  | f :: fs, n => if f.fid = n then fs else f :: removeFlushL fs n

def setPhase (sys : Sys) (n : Nat) (ph : FlushPhase) : Sys :=
  { sys with inFlight := setPhaseL sys.inFlight n ph }

/-- The `finally` block of `processAccumulatedAudio` (source lines 382-386):
runs when the invocation completes, clearing the buffer and resetting
`vadState`; the invocation leaves the in-flight set. -/
def finishFlush (sys : Sys) (n : Nat) : Sys :=
  { sys with inFlight := removeFlushL sys.inFlight n,
             audioBuffer := [], vadState := "silence" }

/-- Success tail of `processAccumulatedAudio`: `sendFinal`, then
`updateState('playing')`, then `setTimeout` of the playback timer, then the
`finally` cleanup. -/
def finishSuccess (sys : Sys) (n : Nat) (asr mt lid : String) : Sys :=
  let s1 := sendFinal sys asr mt lid
  let s2 := updateState s1 SState.playing
  let s3 := { s2 with playTimers := s2.playTimers + 1 }
  finishFlush s3 n

/-- Outer catch of `processAccumulatedAudio` (source lines 378-381):
`sendError`, `updateState('listening')`, then the `finally` cleanup. -/
def finishFailure (sys : Sys) (n : Nat) : Sys :=
  finishFlush (updateState (sendError sys "Processing failed") SState.listening) n

/-- Empty-transcript early return (source lines 306-309):
`updateState('listening')`, `return`, then the `finally` cleanup. -/
def finishEmpty (sys : Sys) (n : Nat) : Sys :=
  finishFlush (updateState sys SState.listening) n

/-- The synchronous prefix of `processAccumulatedAudio` (source lines
270-298): empty-buffer no-op, `updateState('translating')`, segment
assembly, then suspension at the transcription `await`.  Note it does NOT
clear the buffer — that happens only in the `finally`. -/
def startFlush (sys : Sys) : Sys :=
  if sys.audioBuffer = [] then sys
  else
    let s1 := updateState sys SState.translating
    { s1 with
        inFlight := s1.inFlight ++ [⟨s1.nextFid, FlushPhase.awaitTranscribe sys.audioBuffer⟩],
        nextFid := s1.nextFid + 1 }

/-- `processAudioChunk` (source lines 253-268): drop while paused, buffer
the chunk, then flush when 1.5 s of audio is buffered or VAD end was
detected. -/
def processAudioChunk (sys : Sys) (samples : Nat) : Sys :=
  if sys.state = SState.paused then sys
  else
    let s1 := { sys with audioBuffer := sys.audioBuffer ++ [⟨samples, sys.now⟩] }
    if totalSamples s1.audioBuffer * 1000 ≥ 1500 * effRate s1.cfg
        ∨ s1.vadState = "end_detected" then
      startFlush s1
    else s1

/-- `handleVAD` (source lines 389-407): records the raw VAD event; on
`end` it marks `end_detected` and, if audio is buffered, schedules the
100 ms grace-delay flush timer. -/
def handleVAD (sys : Sys) (ev : String) : Sys :=
  let s1 := { sys with vadState := ev }
  if ev = "end" then
    let s2 := { s1 with vadState := "end_detected" }
    if s2.audioBuffer ≠ [] then { s2 with vadTimers := s2.vadTimers + 1 } else s2
  else s1

/-- Resume an invocation suspended at the transcription `await` with the
provider's response (source lines 298-356 up to the next `await`, plus the
catch/finally paths). -/
def stepTranscribeDone (sys : Sys) (n : Nat) (r : Except PErr String) : Sys :=
  match findPhase sys.inFlight n with
  | some (FlushPhase.awaitTranscribe _) =>
    match r with
    | Except.error _ => finishFailure sys n
    | Except.ok text =>
      let t := jsTrim text
      if t = "" then finishEmpty sys n
      else
        let detected := detectLanguageFromText t
        let target := getTargetLanguage detected sys.cfg
        if detected = target then finishSuccess sys n t t detected
        else
          { setPhase sys n (FlushPhase.awaitPrimary t detected target) with
              primaryCalls := sys.primaryCalls + 1 }
  | _ => sys

/-- Resume an invocation suspended at the Google Translate `await`: on
success finish; on ANY error (the catch does not inspect the
classification) fall back to the OpenAI call (source lines 322-350). -/
def stepPrimaryDone (sys : Sys) (n : Nat) (r : Except PErr String) : Sys :=
  match findPhase sys.inFlight n with
  | some (FlushPhase.awaitPrimary t d g) =>
    match r with
    | Except.ok tr => finishSuccess sys n t tr d
    | Except.error _ =>
      { setPhase sys n (FlushPhase.awaitFallback t d g) with
          fallbackCalls := sys.fallbackCalls + 1 }
  | _ => sys

/-- Resume an invocation suspended at the OpenAI fallback `await`: success
trims the completion content and finishes; failure reaches the outer catch
(source lines 333-349 and 378-381). -/
def stepFallbackDone (sys : Sys) (n : Nat) (r : Except PErr String) : Sys :=
  match findPhase sys.inFlight n with
  | some (FlushPhase.awaitFallback t d _) =>
    match r with
    | Except.ok tr => finishSuccess sys n t (jsTrim tr) d
    | Except.error _ => finishFailure sys n
  | _ => sys

/-- The VAD grace-delay timer callback (source lines 402-404): just
`processAccumulatedAudio()`. -/
def stepVadTimer (sys : Sys) : Sys :=
  if sys.vadTimers = 0 then sys
  else startFlush { sys with vadTimers := sys.vadTimers - 1 }

/-- The simulated-playback timer callback (source lines 363-367). -/
def stepPlayTimer (sys : Sys) : Sys :=
  if sys.playTimers = 0 then sys
  else
    let s1 := { sys with playTimers := sys.playTimers - 1 }
    if s1.isActive = true ∧ s1.state = SState.playing then
      updateState s1 SState.listening
    else s1

/-- `TIMEOUT = 30 * 60 * 1000` (source line 517). -/
def IDLE_TIMEOUT_MS : Nat := 30 * 60 * 1000

/-- One pass of the 5-minute cleanup interval over this session (source
lines 515-526): stop and deregister when idle beyond the threshold. -/
def stepSweep (sys : Sys) : Sys :=
  if sys.inRegistry = true ∧ sys.now - sys.lastActivity > IDLE_TIMEOUT_MS then
    { sys with isActive := false, inRegistry := false }
  else sys

/-- State before any `start` frame arrived (the handler's `session` is
still null, so session-directed frames are dropped). -/
def initSys : Sys :=
  { started := false
    cfg := ⟨"auto", "auto", "fixed", 16000⟩
    state := SState.idle
    audioBuffer := []
    vadState := "silence"
    isActive := false
    wsOpen := true
    inRegistry := false
    lastActivity := 0
    now := 0
    outLog := []
    inFlight := []
    nextFid := 0
    vadTimers := 0
    playTimers := 0
    primaryCalls := 0
    fallbackCalls := 0 }

/-- The `start` frame (source lines 439-449): construct the session
(state `idle`, empty buffer, `vadState 'silence'`, active,
`lastActivity = Date.now()`), register it, then `updateState('listening')`.
Model restriction: one session object per trace, so a second `start` is a
no-op here. -/
def stepStart (sys : Sys) (cfg : SessCfg) : Sys :=
  if sys.started = true then sys
  else
    let s1 : Sys :=
      { sys with started := true, cfg := cfg, state := SState.idle,
                 audioBuffer := [], vadState := "silence", isActive := true,
                 inRegistry := true, lastActivity := sys.now }
    updateState s1 SState.listening

instance (α β : Type) [DecidableEq α] [DecidableEq β] : DecidableEq (Except α β) :=
  fun a b =>
    match a, b with
    | Except.ok x, Except.ok y =>
      if h : x = y then Decidable.isTrue (by rw [h])
      else Decidable.isFalse (by intro hc; cases hc; exact h rfl)
    | Except.error x, Except.error y =>
      if h : x = y then Decidable.isTrue (by rw [h])
      else Decidable.isFalse (by intro hc; cases hc; exact h rfl)
    | Except.ok _, Except.error _ => Decidable.isFalse (by intro hc; cases hc)
    | Except.error _, Except.ok _ => Decidable.isFalse (by intro hc; cases hc)

/-- Environment actions: inbound protocol frames, socket close, the two
timer callbacks, provider responses resuming a suspended invocation, time
passing, and one cleanup-sweep pass. -/
inductive Act
  | start (cfg : SessCfg)
  | audio (samples : Nat)
  | vad (ev : String)
  | pause
  | resume
  | stop
  | wsClose
  | vadTimerFire
  | playTimerFire
  | transcribeDone (n : Nat) (r : Except PErr String)
  | primaryDone (n : Nat) (r : Except PErr String)
  | fallbackDone (n : Nat) (r : Except PErr String)
  | tick (d : Nat)
  | sweep
deriving DecidableEq

/-- One event-loop turn.  Session-directed frames are dropped while no
session exists (`if (session)` guards in the connection handler); provider
responses and timer callbacks belong to closures and need no such guard. -/
def step (sys : Sys) : Act → Sys
  | Act.start cfg => stepStart sys cfg
  | Act.audio n => if sys.started = true then processAudioChunk sys n else sys
  | Act.vad ev => if sys.started = true then handleVAD sys ev else sys
  | Act.pause => if sys.started = true then updateState sys SState.paused else sys
  | Act.resume => if sys.started = true then updateState sys SState.listening else sys
  | Act.stop =>
      if sys.started = true then { sys with isActive := false, inRegistry := false } else sys
  | Act.wsClose =>
      if sys.started = true then
        { sys with isActive := false, inRegistry := false, wsOpen := false }
      else { sys with wsOpen := false }
  | Act.vadTimerFire => stepVadTimer sys
  | Act.playTimerFire => stepPlayTimer sys
  | Act.transcribeDone n r => stepTranscribeDone sys n r
  | Act.primaryDone n r => stepPrimaryDone sys n r
  | Act.fallbackDone n r => stepFallbackDone sys n r
  | Act.tick d => { sys with now := sys.now + d }
  | Act.sweep => stepSweep sys

/-- Run a whole event trace from the fresh-connection state. -/
def run (acts : List Act) : Sys := acts.foldl step initSys

def isFinalMsg : Msg → Bool
  | Msg.final _ _ _ => true
  | _ => false

def isErrorMsg : Msg → Bool
  | Msg.error _ => true
  | _ => false

/-- Number of `final` frames in an outbound log. -/
def countFinals (l : List Msg) : Nat := (l.filter isFinalMsg).length

/-- Number of `error` frames in an outbound log. -/
def countErrors (l : List Msg) : Nat := (l.filter isErrorMsg).length

/-- A fixed-pairing English-to-Spanish session configuration at 16 kHz
(the spec's Scenario A/B configuration). -/
def cfg0 : SessCfg := ⟨"en", "es", "fixed", 16000⟩

/-- The transition-edge set asserted by the spec §4.1 (claim C2), as
(from, to) pairs: `idle→listening`, `listening→translating`,
`translating→playing`, `playing→listening`,
`listening/translating/playing→paused`, `paused→listening`, and
`any→stopped`.  This definition follows the spec's words, for comparison
with the embedded code. -/
def specEdge : SState → SState → Bool
  | SState.idle, SState.listening => true
  | SState.listening, SState.translating => true
  | SState.translating, SState.playing => true
  | SState.playing, SState.listening => true
  | SState.listening, SState.paused => true
  | SState.translating, SState.paused => true
  | SState.playing, SState.paused => true
  | SState.paused, SState.listening => true
  | _, SState.stopped => true
  | _, _ => false

/-- Whether an action is a `start` frame (which constructs a session). -/
def isStartAct : Act → Bool
  | Act.start _ => true
  | _ => false

/-- A trace reaching the `playing` state with an empty buffer: start, one
1.5 s chunk (dispatches a flush), transcription "Hello", primary
translation "Hola". -/
def playingTrace : List Act :=
  [Act.start cfg0, Act.audio 24000,
   Act.transcribeDone 0 (Except.ok "Hello"),
   Act.primaryDone 0 (Except.ok "Hola")]

/-- A session whose flush 0 is suspended at the primary-translation
`await` for transcript "Hello" (en → es). -/
def awaitingPrimarySys : Sys :=
  run [Act.start cfg0, Act.audio 24000, Act.transcribeDone 0 (Except.ok "Hello")]

/-- A session whose flush 0 is suspended at the transcription `await`. -/
def awaitingTranscribeSys : Sys :=
  run [Act.start cfg0, Act.audio 24000]

/-- A session deactivated by `stop` while flush 0 is still in flight. -/
def stoppedSys : Sys :=
  run [Act.start cfg0, Act.audio 24000, Act.stop]

/-! ## Basic lemmas about the session primitives -/

lemma sendMsg_state (sys : Sys) (m : Msg) : (sendMsg sys m).state = sys.state := by
  unfold sendMsg; split <;> rfl

lemma sendMsg_isActive (sys : Sys) (m : Msg) : (sendMsg sys m).isActive = sys.isActive := by
  unfold sendMsg; split <;> rfl

lemma sendMsg_wsOpen (sys : Sys) (m : Msg) : (sendMsg sys m).wsOpen = sys.wsOpen := by
  unfold sendMsg; split <;> rfl

lemma sendMsg_inFlight (sys : Sys) (m : Msg) : (sendMsg sys m).inFlight = sys.inFlight := by
  unfold sendMsg; split <;> rfl

lemma sendMsg_audioBuffer (sys : Sys) (m : Msg) :
    (sendMsg sys m).audioBuffer = sys.audioBuffer := by
  unfold sendMsg; split <;> rfl

lemma sendMsg_vadState (sys : Sys) (m : Msg) : (sendMsg sys m).vadState = sys.vadState := by
  unfold sendMsg; split <;> rfl

lemma sendMsg_nextFid (sys : Sys) (m : Msg) : (sendMsg sys m).nextFid = sys.nextFid := by
  unfold sendMsg; split <;> rfl

lemma sendMsg_now (sys : Sys) (m : Msg) : (sendMsg sys m).now = sys.now := by
  unfold sendMsg; split <;> rfl

lemma sendMsg_primaryCalls (sys : Sys) (m : Msg) :
    (sendMsg sys m).primaryCalls = sys.primaryCalls := by
  unfold sendMsg; split <;> rfl

lemma sendMsg_fallbackCalls (sys : Sys) (m : Msg) :
    (sendMsg sys m).fallbackCalls = sys.fallbackCalls := by
  unfold sendMsg; split <;> rfl

lemma sendMsg_outLog_inactive (sys : Sys) (m : Msg) (h : sys.isActive = false) :
    (sendMsg sys m).outLog = sys.outLog := by
  unfold sendMsg
  rw [if_neg]
  rintro ⟨-, h2⟩
  rw [h] at h2
  cases h2

lemma sendMsg_outLog_active (sys : Sys) (m : Msg) (hws : sys.wsOpen = true)
    (hact : sys.isActive = true) : (sendMsg sys m).outLog = sys.outLog ++ [m] := by
  unfold sendMsg
  rw [if_pos ⟨hws, hact⟩]

lemma updateState_state (sys : Sys) (s : SState) : (updateState sys s).state = s := by
  unfold updateState
  rw [sendMsg_state]

lemma updateState_isActive (sys : Sys) (s : SState) :
    (updateState sys s).isActive = sys.isActive := by
  unfold updateState
  rw [sendMsg_isActive]

lemma updateState_inFlight (sys : Sys) (s : SState) :
    (updateState sys s).inFlight = sys.inFlight := by
  unfold updateState
  rw [sendMsg_inFlight]

lemma updateState_audioBuffer (sys : Sys) (s : SState) :
    (updateState sys s).audioBuffer = sys.audioBuffer := by
  unfold updateState
  rw [sendMsg_audioBuffer]

lemma updateState_vadState (sys : Sys) (s : SState) :
    (updateState sys s).vadState = sys.vadState := by
  unfold updateState
  rw [sendMsg_vadState]

lemma updateState_outLog_inactive (sys : Sys) (s : SState) (h : sys.isActive = false) :
    (updateState sys s).outLog = sys.outLog := by
  unfold updateState
  exact sendMsg_outLog_inactive _ _ h

/-! ## Claim theorems -/

/-- C1: the serialization invariant fails on the code.  After `start`, one
1.5 s audio chunk dispatches a duration-threshold flush; because the
buffer is only cleared in the invocation's `finally`, a `vad end` frame
still sees a nonempty buffer and schedules the grace-delay timer, whose
callback dispatches a second `processAccumulatedAudio` while the first is
still awaiting the transcription provider: two pipeline flushes for the
same session are concurrently in flight (over the very same segment). -/
theorem c1_two_flushes_in_flight :
    (run [Act.start cfg0, Act.audio 24000, Act.vad "end", Act.vadTimerFire]).inFlight
      = [⟨0, FlushPhase.awaitTranscribe [⟨24000, 0⟩]⟩,
         ⟨1, FlushPhase.awaitTranscribe [⟨24000, 0⟩]⟩] := by
  decide

/-- Any character survives `dropWhile p` when `p` rejects it. -/
lemma mem_dropWhile_of_neg {α : Type} (p : α → Bool) (l : List α) (x : α)
    (hx : x ∈ l) (hpx : p x = false) : x ∈ l.dropWhile p := by
  induction l with
  | nil => cases hx
  | cons a as ih =>
    rw [List.dropWhile_cons]
    by_cases ha : p a = true
    · rw [if_pos ha]
      rcases List.mem_cons.mp hx with h | h
      · rw [h] at hpx; rw [hpx] at ha; cases ha
      · exact ih h
    · rw [if_neg ha]
      exact hx

/-- Non-whitespace characters survive the JavaScript trim. -/
lemma mem_jsTrimList (l : List Char) (c : Char) (hc : c ∈ l)
    (hw : isJsWhitespaceChar c = false) : c ∈ jsTrimList l := by
  unfold jsTrimList
  apply List.mem_reverse.mpr
  apply mem_dropWhile_of_neg _ _ _ _ hw
  apply List.mem_reverse.mpr
  exact mem_dropWhile_of_neg _ _ _ hc hw

/-- Characters in the Arabic block are not JavaScript whitespace. -/
lemma arabic_not_ws (c : Char) (h1 : 0x600 ≤ c.toNat) (h2 : c.toNat ≤ 0x6FF) :
    isJsWhitespaceChar c = false := by
  unfold isJsWhitespaceChar
  simp only [decide_eq_false_iff_not]
  omega

lemma jsTrim_eq_empty_iff (s : String) : jsTrim s = "" ↔ jsTrimList s.data = [] := by
  unfold jsTrim
  constructor
  · intro h
    have := congrArg String.data h
    simpa using this
  · intro h
    rw [h]

/-- C10: `detectLanguageFromText` only ever returns one of
`ar`, `zh`, `ja`, `ko`, `ru`, `en`; it never returns `ur` (the Urdu branch
tests the identical U+0600–U+06FF range after the Arabic branch, so it is
unreachable); empty or whitespace-only text yields `en`; and any text with
a character in U+0600–U+06FF yields `ar`. -/
theorem c10_detect_language (s : String) :
    (detectLanguageFromText s = "ar" ∨ detectLanguageFromText s = "zh" ∨
     detectLanguageFromText s = "ja" ∨ detectLanguageFromText s = "ko" ∨
     detectLanguageFromText s = "ru" ∨ detectLanguageFromText s = "en") ∧
    detectLanguageFromText s ≠ "ur" ∧
    (jsTrim s = "" → detectLanguageFromText s = "en") ∧
    (∀ c, c ∈ s.data → 0x600 ≤ c.toNat → c.toNat ≤ 0x6FF →
      detectLanguageFromText s = "ar") := by
  refine ⟨?_, ?_, ?_, ?_⟩
  · unfold detectLanguageFromText
    simp only [arabicPattern, urduPattern]
    split_ifs <;> decide
  · unfold detectLanguageFromText
    simp only [arabicPattern, urduPattern]
    split_ifs <;> decide
  · intro h
    unfold detectLanguageFromText
    rw [if_pos (Or.inr h)]
  · intro c hc h1 h2
    have hnw : isJsWhitespaceChar c = false := arabic_not_ws c h1 h2
    have hne : jsTrimList s.data ≠ [] :=
      List.ne_nil_of_mem (mem_jsTrimList s.data c hc hnw)
    have hs : ¬(s = "" ∨ jsTrim s = "") := by
      rintro (h | h)
      · rw [h] at hne
        exact hne rfl
      · exact hne ((jsTrim_eq_empty_iff s).mp h)
    have har : arabicPattern s = true := by
      unfold arabicPattern hasCharInRange
      rw [List.any_eq_true]
      exact ⟨c, hc, by simp [h1, h2]⟩
    unfold detectLanguageFromText
    rw [if_neg hs, if_pos har]

/-- C10 witness: Arabic-script text is classified `ar`; whitespace-only
text is classified `en`. -/
theorem c10_detect_language_witness :
    detectLanguageFromText "سلام" = "ar" ∧ detectLanguageFromText " " = "en" := by
  constructor
  · exact (c10_detect_language "سلام").2.2.2 'س' (by decide) (by decide) (by decide)
  · exact (c10_detect_language " ").2.2.1 (by decide)

/-! ## State-field lemmas for each step component -/

lemma finishFlush_state (sys : Sys) (n : Nat) : (finishFlush sys n).state = sys.state := rfl

lemma finishSuccess_state (sys : Sys) (n : Nat) (asr mt lid : String) :
    (finishSuccess sys n asr mt lid).state = SState.playing := by
  unfold finishSuccess finishFlush
  exact updateState_state _ _

lemma finishFailure_state (sys : Sys) (n : Nat) :
    (finishFailure sys n).state = SState.listening := by
  unfold finishFailure finishFlush
  exact updateState_state _ _

lemma finishEmpty_state (sys : Sys) (n : Nat) :
    (finishEmpty sys n).state = SState.listening := by
  unfold finishEmpty finishFlush
  exact updateState_state _ _

lemma startFlush_state (sys : Sys) :
    (startFlush sys).state = sys.state ∨ (startFlush sys).state = SState.translating := by
  unfold startFlush
  split
  · exact Or.inl rfl
  · exact Or.inr (updateState_state _ _)

lemma processAudioChunk_state (sys : Sys) (n : Nat) :
    (processAudioChunk sys n).state = sys.state ∨
    (processAudioChunk sys n).state = SState.translating := by
  unfold processAudioChunk
  split
  · exact Or.inl rfl
  · dsimp only
    split
    · rcases startFlush_state { sys with audioBuffer := sys.audioBuffer ++ [⟨n, sys.now⟩] }
        with h | h
      · exact Or.inl h
      · exact Or.inr h
    · exact Or.inl rfl

lemma handleVAD_state (sys : Sys) (ev : String) : (handleVAD sys ev).state = sys.state := by
  unfold handleVAD
  dsimp only
  split
  · split <;> rfl
  · rfl

lemma stepTranscribeDone_state (sys : Sys) (n : Nat) (r : Except PErr String) :
    (stepTranscribeDone sys n r).state = sys.state ∨
    (stepTranscribeDone sys n r).state = SState.listening ∨
    (stepTranscribeDone sys n r).state = SState.playing := by
  unfold stepTranscribeDone
  split
  · split
    · exact Or.inr (Or.inl (finishFailure_state _ _))
    · dsimp only
      split
      · exact Or.inr (Or.inl (finishEmpty_state _ _))
      · split
        · exact Or.inr (Or.inr (finishSuccess_state _ _ _ _ _))
        · exact Or.inl rfl
  · exact Or.inl rfl

lemma stepPrimaryDone_state (sys : Sys) (n : Nat) (r : Except PErr String) :
    (stepPrimaryDone sys n r).state = sys.state ∨
    (stepPrimaryDone sys n r).state = SState.playing := by
  unfold stepPrimaryDone
  split
  · split
    · exact Or.inr (finishSuccess_state _ _ _ _ _)
    · exact Or.inl rfl
  · exact Or.inl rfl

lemma stepFallbackDone_state (sys : Sys) (n : Nat) (r : Except PErr String) :
    (stepFallbackDone sys n r).state = sys.state ∨
    (stepFallbackDone sys n r).state = SState.playing ∨
    (stepFallbackDone sys n r).state = SState.listening := by
  unfold stepFallbackDone
  split
  · split
    · exact Or.inr (Or.inl (finishSuccess_state _ _ _ _ _))
    · exact Or.inr (Or.inr (finishFailure_state _ _))
  · exact Or.inl rfl

lemma stepVadTimer_state (sys : Sys) :
    (stepVadTimer sys).state = sys.state ∨ (stepVadTimer sys).state = SState.translating := by
  unfold stepVadTimer
  split
  · exact Or.inl rfl
  · rcases startFlush_state { sys with vadTimers := sys.vadTimers - 1 } with h | h
    · exact Or.inl h
    · exact Or.inr h

lemma stepPlayTimer_state (sys : Sys) :
    (stepPlayTimer sys).state = sys.state ∨ (stepPlayTimer sys).state = SState.listening := by
  unfold stepPlayTimer
  split
  · exact Or.inl rfl
  · dsimp only
    split
    · exact Or.inr (updateState_state _ _)
    · exact Or.inl rfl

lemma stepStart_state (sys : Sys) (cfg : SessCfg) :
    (stepStart sys cfg).state = sys.state ∨ (stepStart sys cfg).state = SState.listening := by
  unfold stepStart
  split
  · exact Or.inl rfl
  · exact Or.inr (updateState_state _ _)

lemma stepSweep_state (sys : Sys) : (stepSweep sys).state = sys.state := by
  unfold stepSweep
  split <;> rfl

/-- C2 counterexample: from `playing` (buffer already cleared by the
finished flush), a further duration-threshold chunk dispatches a flush and
drives `playing → translating` — a transition outside the spec §4.1 edge
set.  `processAudioChunk` only guards against `paused`, not against
`playing`. -/
theorem c2_undefined_transition :
    (run playingTrace).state = SState.playing ∧
    (step (run playingTrace) (Act.audio 24000)).state = SState.translating ∧
    specEdge SState.playing SState.translating = false := by
  refine ⟨by decide, by decide, by decide⟩

/-- C2 amended: `state` is mutated only through `updateState`, whose
targets are exactly `listening`, `translating`, `playing` and `paused`:
every event either leaves `state` unchanged or moves it to one of those
four values.  The §4.1 edge set is not respected (see the counterexample:
`playing → translating` is reachable), `stopped` is never entered
(`stop()` only clears `isActive`), and `pause`/`resume` apply from any
state. -/
theorem c2_state_transitions (sys : Sys) (a : Act) :
    (step sys a).state = sys.state ∨ (step sys a).state = SState.listening ∨
    (step sys a).state = SState.translating ∨ (step sys a).state = SState.playing ∨
    (step sys a).state = SState.paused := by
  cases a with
  | start cfg =>
    rcases stepStart_state sys cfg with h | h
    · exact Or.inl h
    · exact Or.inr (Or.inl h)
  | audio n =>
    simp only [step]
    split
    · rcases processAudioChunk_state sys n with h | h
      · exact Or.inl h
      · exact Or.inr (Or.inr (Or.inl h))
    · exact Or.inl rfl
  | vad ev =>
    simp only [step]
    split
    · exact Or.inl (handleVAD_state sys ev)
    · exact Or.inl rfl
  | pause =>
    simp only [step]
    split
    · exact Or.inr (Or.inr (Or.inr (Or.inr (updateState_state _ _))))
    · exact Or.inl rfl
  | resume =>
    simp only [step]
    split
    · exact Or.inr (Or.inl (updateState_state _ _))
    · exact Or.inl rfl
  | stop =>
    simp only [step]
    split
    · exact Or.inl rfl
    · exact Or.inl rfl
  | wsClose =>
    simp only [step]
    split
    · exact Or.inl rfl
    · exact Or.inl rfl
  | vadTimerFire =>
    rcases stepVadTimer_state sys with h | h
    · exact Or.inl h
    · exact Or.inr (Or.inr (Or.inl h))
  | playTimerFire =>
    rcases stepPlayTimer_state sys with h | h
    · exact Or.inl h
    · exact Or.inr (Or.inl h)
  | transcribeDone n r =>
    rcases stepTranscribeDone_state sys n r with h | h | h
    · exact Or.inl h
    · exact Or.inr (Or.inl h)
    · exact Or.inr (Or.inr (Or.inr (Or.inl h)))
  | primaryDone n r =>
    rcases stepPrimaryDone_state sys n r with h | h
    · exact Or.inl h
    · exact Or.inr (Or.inr (Or.inr (Or.inl h)))
  | fallbackDone n r =>
    rcases stepFallbackDone_state sys n r with h | h | h
    · exact Or.inl h
    · exact Or.inr (Or.inr (Or.inr (Or.inl h)))
    · exact Or.inr (Or.inl h)
  | tick d => exact Or.inl rfl
  | sweep => exact Or.inl (stepSweep_state sys)

/-! ## Deactivated sessions deliver nothing (for C9) -/

lemma updateState_inactive (sys : Sys) (s : SState) (h : sys.isActive = false) :
    (updateState sys s).outLog = sys.outLog ∧ (updateState sys s).isActive = false := by
  refine ⟨updateState_outLog_inactive _ _ h, ?_⟩
  rw [updateState_isActive]
  exact h

lemma startFlush_inactive (sys : Sys) (h : sys.isActive = false) :
    (startFlush sys).outLog = sys.outLog ∧ (startFlush sys).isActive = false := by
  unfold startFlush
  split
  · exact ⟨rfl, h⟩
  · dsimp only
    exact updateState_inactive sys SState.translating h

lemma finishSuccess_inactive (sys : Sys) (n : Nat) (asr mt lid : String)
    (h : sys.isActive = false) :
    (finishSuccess sys n asr mt lid).outLog = sys.outLog ∧
    (finishSuccess sys n asr mt lid).isActive = false := by
  unfold finishSuccess finishFlush sendFinal
  dsimp only
  have h1 : (sendMsg sys (Msg.final asr mt lid)).isActive = false := by
    rw [sendMsg_isActive]; exact h
  constructor
  · rw [updateState_outLog_inactive _ _ h1, sendMsg_outLog_inactive _ _ h]
  · rw [updateState_isActive]
    exact h1

lemma finishFailure_inactive (sys : Sys) (n : Nat) (h : sys.isActive = false) :
    (finishFailure sys n).outLog = sys.outLog ∧ (finishFailure sys n).isActive = false := by
  unfold finishFailure finishFlush sendError
  dsimp only
  have h1 : (sendMsg sys (Msg.error "Processing failed")).isActive = false := by
    rw [sendMsg_isActive]; exact h
  constructor
  · rw [updateState_outLog_inactive _ _ h1, sendMsg_outLog_inactive _ _ h]
  · rw [updateState_isActive]
    exact h1

lemma finishEmpty_inactive (sys : Sys) (n : Nat) (h : sys.isActive = false) :
    (finishEmpty sys n).outLog = sys.outLog ∧ (finishEmpty sys n).isActive = false := by
  unfold finishEmpty finishFlush
  dsimp only
  exact updateState_inactive sys SState.listening h

/-- One event-loop turn of a deactivated session: no outbound frame is
appended and the session stays deactivated (single-step core of C9). -/
lemma step_inactive (sys : Sys) (a : Act) (hin : sys.isActive = false)
    (hns : isStartAct a = false) :
    (step sys a).outLog = sys.outLog ∧ (step sys a).isActive = false := by
  cases a with
  | start cfg => cases hns
  | audio n =>
    simp only [step]
    split
    · unfold processAudioChunk
      split
      · exact ⟨rfl, hin⟩
      · dsimp only
        split
        · exact startFlush_inactive _ hin
        · exact ⟨rfl, hin⟩
    · exact ⟨rfl, hin⟩
  | vad ev =>
    simp only [step]
    split
    · unfold handleVAD
      dsimp only
      split
      · split
        · exact ⟨rfl, hin⟩
        · exact ⟨rfl, hin⟩
      · exact ⟨rfl, hin⟩
    · exact ⟨rfl, hin⟩
  | pause =>
    simp only [step]
    split
    · exact updateState_inactive sys SState.paused hin
    · exact ⟨rfl, hin⟩
  | resume =>
    simp only [step]
    split
    · exact updateState_inactive sys SState.listening hin
    · exact ⟨rfl, hin⟩
  | stop =>
    simp only [step]
    split
    · exact ⟨rfl, rfl⟩
    · exact ⟨rfl, hin⟩
  | wsClose =>
    simp only [step]
    split
    · exact ⟨rfl, rfl⟩
    · exact ⟨rfl, hin⟩
  | vadTimerFire =>
    simp only [step]
    unfold stepVadTimer
    split
    · exact ⟨rfl, hin⟩
    · exact startFlush_inactive _ hin
  | playTimerFire =>
    simp only [step]
    unfold stepPlayTimer
    split
    · exact ⟨rfl, hin⟩
    · dsimp only
      split
      · rename_i hcond
        exact absurd hcond.1 (by rw [show ({ sys with playTimers := sys.playTimers - 1 } : Sys).isActive = sys.isActive from rfl, hin]; exact Bool.false_ne_true)
      · exact ⟨rfl, hin⟩
  | transcribeDone n r =>
    simp only [step]
    unfold stepTranscribeDone
    split
    · split
      · exact finishFailure_inactive _ _ hin
      · dsimp only
        split
        · exact finishEmpty_inactive _ _ hin
        · split
          · exact finishSuccess_inactive _ _ _ _ _ hin
          · exact ⟨rfl, hin⟩
    · exact ⟨rfl, hin⟩
  | primaryDone n r =>
    simp only [step]
    unfold stepPrimaryDone
    split
    · split
      · exact finishSuccess_inactive _ _ _ _ _ hin
      · exact ⟨rfl, hin⟩
    · exact ⟨rfl, hin⟩
  | fallbackDone n r =>
    simp only [step]
    unfold stepFallbackDone
    split
    · split
      · exact finishSuccess_inactive _ _ _ _ _ hin
      · exact finishFailure_inactive _ _ hin
    · exact ⟨rfl, hin⟩
  | tick d => exact ⟨rfl, hin⟩
  | sweep =>
    simp only [step]
    unfold stepSweep
    split
    · exact ⟨rfl, rfl⟩
    · exact ⟨rfl, hin⟩

/-- C9: once a session is deactivated (`stop` or disconnect cleared
`isActive`), no further event — including completion of in-flight pipeline
calls, timers, or inbound frames — ever appends an outbound frame: the
results of in-flight provider calls are discarded, because `send` checks
`isActive`.  (`start` frames are excluded: in the source they construct a
brand-new session object.) -/
theorem c9_no_delivery_after_deactivation (sys : Sys) (acts : List Act)
    (hin : sys.isActive = false) (hns : ∀ a ∈ acts, isStartAct a = false) :
    (acts.foldl step sys).outLog = sys.outLog ∧
    (acts.foldl step sys).isActive = false := by
  induction acts generalizing sys with
  | nil => exact ⟨rfl, hin⟩
  | cons a as ih =>
    have h1 := step_inactive sys a hin (hns a (List.mem_cons_self a as))
    have h2 := ih (step sys a) h1.2 (fun b hb => hns b (List.mem_cons_of_mem a hb))
    rw [List.foldl_cons]
    exact ⟨h2.1.trans h1.1, h2.2⟩

/-- C9 witness: a session stopped while a flush is in flight; the
transcription and translation completions arrive afterwards and nothing is
delivered. -/
theorem c9_no_delivery_after_deactivation_witness :
    stoppedSys.isActive = false ∧
    (([Act.transcribeDone 0 (Except.ok "Hello"), Act.primaryDone 0 (Except.ok "Hola"),
       Act.playTimerFire].foldl step stoppedSys).outLog = stoppedSys.outLog ∧
     ([Act.transcribeDone 0 (Except.ok "Hello"), Act.primaryDone 0 (Except.ok "Hola"),
       Act.playTimerFire].foldl step stoppedSys).isActive = false) := by
  refine ⟨by decide, c9_no_delivery_after_deactivation stoppedSys _ (by decide) (by decide)⟩

/-! ## Flush-phase bookkeeping lemmas (for C3, C4, C5) -/

lemma findPhase_setPhaseL (l : List Flush) (n : Nat) (ph ph0 : FlushPhase)
    (h : findPhase l n = some ph0) :
    findPhase (setPhaseL l n ph) n = some ph := by
  induction l with
  | nil => simp [findPhase] at h
  | cons f fs ih =>
    unfold setPhaseL
    by_cases hf : f.fid = n
    · rw [if_pos hf]
      unfold findPhase
      rw [if_pos (show ({ f with phase := ph } : Flush).fid = n from hf)]
    · rw [if_neg hf]
      unfold findPhase
      rw [if_neg hf]
      unfold findPhase at h
      rw [if_neg hf] at h
      exact ih h

lemma countFinals_append (l1 l2 : List Msg) :
    countFinals (l1 ++ l2) = countFinals l1 + countFinals l2 := by
  unfold countFinals
  rw [List.filter_append, List.length_append]

lemma countErrors_append (l1 l2 : List Msg) :
    countErrors (l1 ++ l2) = countErrors l1 + countErrors l2 := by
  unfold countErrors
  rw [List.filter_append, List.length_append]

lemma countFinals_updateState (sys : Sys) (s : SState) :
    countFinals (updateState sys s).outLog = countFinals sys.outLog := by
  unfold updateState sendMsg
  split
  · dsimp only
    rw [countFinals_append]
    rfl
  · rfl

lemma countErrors_updateState (sys : Sys) (s : SState) :
    countErrors (updateState sys s).outLog = countErrors sys.outLog := by
  unfold updateState sendMsg
  split
  · dsimp only
    rw [countErrors_append]
    rfl
  · rfl

lemma updateState_primaryCalls (sys : Sys) (s : SState) :
    (updateState sys s).primaryCalls = sys.primaryCalls := by
  unfold updateState
  rw [sendMsg_primaryCalls]

lemma updateState_fallbackCalls (sys : Sys) (s : SState) :
    (updateState sys s).fallbackCalls = sys.fallbackCalls := by
  unfold updateState
  rw [sendMsg_fallbackCalls]

lemma updateState_outLog_active (sys : Sys) (s : SState) (hws : sys.wsOpen = true)
    (hact : sys.isActive = true) :
    (updateState sys s).outLog = sys.outLog ++ [Msg.status s] := by
  unfold updateState
  exact sendMsg_outLog_active _ _ hws hact

lemma finishSuccess_outLog_active (sys : Sys) (n : Nat) (asr mt lid : String)
    (hws : sys.wsOpen = true) (hact : sys.isActive = true) :
    (finishSuccess sys n asr mt lid).outLog
      = sys.outLog ++ [Msg.final asr mt lid, Msg.status SState.playing] := by
  unfold finishSuccess finishFlush sendFinal
  dsimp only
  rw [updateState_outLog_active _ _ (by rw [sendMsg_wsOpen]; exact hws)
        (by rw [sendMsg_isActive]; exact hact),
      sendMsg_outLog_active _ _ hws hact, List.append_assoc]
  rfl

/-- C3: when the primary (Google Translate) call fails and the OpenAI
fallback succeeds, exactly one `final` frame is delivered — carrying the
fallback's (trimmed) completion as the translation — followed by the
`playing` status, and no `error` frame is emitted. -/
theorem c3_fallback_law (sys : Sys) (n : Nat) (t d g tr : String) (e : PErr)
    (hph : findPhase sys.inFlight n = some (FlushPhase.awaitPrimary t d g))
    (hws : sys.wsOpen = true) (hact : sys.isActive = true) :
    (step (step sys (Act.primaryDone n (Except.error e)))
        (Act.fallbackDone n (Except.ok tr))).outLog
      = sys.outLog ++ [Msg.final t (jsTrim tr) d, Msg.status SState.playing] ∧
    countFinals (step (step sys (Act.primaryDone n (Except.error e)))
        (Act.fallbackDone n (Except.ok tr))).outLog = countFinals sys.outLog + 1 ∧
    countErrors (step (step sys (Act.primaryDone n (Except.error e)))
        (Act.fallbackDone n (Except.ok tr))).outLog = countErrors sys.outLog := by
  simp only [step]
  have hs1 : stepPrimaryDone sys n (Except.error e)
      = { setPhase sys n (FlushPhase.awaitFallback t d g) with
            fallbackCalls := sys.fallbackCalls + 1 } := by
    simp only [stepPrimaryDone, hph]
  have hfind1 : findPhase (stepPrimaryDone sys n (Except.error e)).inFlight n
      = some (FlushPhase.awaitFallback t d g) := by
    rw [hs1]
    exact findPhase_setPhaseL sys.inFlight n _ _ hph
  have hs2 : stepFallbackDone (stepPrimaryDone sys n (Except.error e)) n (Except.ok tr)
      = finishSuccess (stepPrimaryDone sys n (Except.error e)) n t (jsTrim tr) d := by
    simp only [stepFallbackDone, hfind1]
  have hout : (stepFallbackDone (stepPrimaryDone sys n (Except.error e)) n
        (Except.ok tr)).outLog
      = sys.outLog ++ [Msg.final t (jsTrim tr) d, Msg.status SState.playing] := by
    rw [hs2, finishSuccess_outLog_active _ _ _ _ _ (by rw [hs1]; exact hws)
          (by rw [hs1]; exact hact), hs1]
    dsimp only [setPhase]
  refine ⟨hout, ?_, ?_⟩
  · rw [hout, countFinals_append]
    rfl
  · rw [hout, countErrors_append]
    rfl

/-- C3 witness: concrete en→es session, primary fails transiently,
fallback returns "Hola". -/
theorem c3_fallback_law_witness :
    (findPhase awaitingPrimarySys.inFlight 0
        = some (FlushPhase.awaitPrimary "Hello" "en" "es") ∧
      awaitingPrimarySys.wsOpen = true ∧ awaitingPrimarySys.isActive = true) ∧
    (step (step awaitingPrimarySys (Act.primaryDone 0 (Except.error PErr.transient)))
        (Act.fallbackDone 0 (Except.ok "Hola"))).outLog
      = awaitingPrimarySys.outLog
          ++ [Msg.final "Hello" (jsTrim "Hola") "en", Msg.status SState.playing] := by
  refine ⟨⟨by decide, by decide, by decide⟩, ?_⟩
  exact (c3_fallback_law awaitingPrimarySys 0 "Hello" "en" "es" "Hola" PErr.transient
    (by decide) (by decide) (by decide)).1

/-- C4 counterexample: the primary translation fails with a quota error,
yet a fallback retry IS attempted (`fallbackCalls` increments, the
invocation moves to the fallback suspension point) and no `error` frame is
surfaced at that moment — contradicting "no fallback retry is attempted:
the failure is surfaced immediately". -/
theorem c4_quota_error_retries_fallback :
    (step awaitingPrimarySys (Act.primaryDone 0 (Except.error PErr.quota))).fallbackCalls
      = awaitingPrimarySys.fallbackCalls + 1 ∧
    findPhase (step awaitingPrimarySys
        (Act.primaryDone 0 (Except.error PErr.quota))).inFlight 0
      = some (FlushPhase.awaitFallback "Hello" "en" "es") ∧
    countErrors (step awaitingPrimarySys
        (Act.primaryDone 0 (Except.error PErr.quota))).outLog = 0 := by
  refine ⟨by decide, by decide, by decide⟩

/-- C4 amended: the catch around the primary translation does not inspect
the error classification — for EVERY failure (transient, quota, auth,
invalid-input alike) it proceeds to the fallback call, emitting nothing at
that point; an error is surfaced only if the fallback also fails. -/
theorem c4_any_error_falls_back (sys : Sys) (n : Nat) (t d g : String) (e : PErr)
    (hph : findPhase sys.inFlight n = some (FlushPhase.awaitPrimary t d g)) :
    (step sys (Act.primaryDone n (Except.error e))).fallbackCalls
      = sys.fallbackCalls + 1 ∧
    findPhase (step sys (Act.primaryDone n (Except.error e))).inFlight n
      = some (FlushPhase.awaitFallback t d g) ∧
    (step sys (Act.primaryDone n (Except.error e))).outLog = sys.outLog := by
  simp only [step]
  have hs1 : stepPrimaryDone sys n (Except.error e)
      = { setPhase sys n (FlushPhase.awaitFallback t d g) with
            fallbackCalls := sys.fallbackCalls + 1 } := by
    simp only [stepPrimaryDone, hph]
  rw [hs1]
  dsimp only [setPhase]
  exact ⟨rfl, findPhase_setPhaseL sys.inFlight n _ _ hph, rfl⟩

/-- C4 amended witness: an auth-classified failure also goes to the
fallback. -/
theorem c4_any_error_falls_back_witness :
    findPhase awaitingPrimarySys.inFlight 0
      = some (FlushPhase.awaitPrimary "Hello" "en" "es") ∧
    ((step awaitingPrimarySys (Act.primaryDone 0 (Except.error PErr.auth))).fallbackCalls
        = awaitingPrimarySys.fallbackCalls + 1 ∧
      findPhase (step awaitingPrimarySys
          (Act.primaryDone 0 (Except.error PErr.auth))).inFlight 0
        = some (FlushPhase.awaitFallback "Hello" "en" "es") ∧
      (step awaitingPrimarySys (Act.primaryDone 0 (Except.error PErr.auth))).outLog
        = awaitingPrimarySys.outLog) := by
  refine ⟨by decide, ?_⟩
  exact c4_any_error_falls_back awaitingPrimarySys 0 "Hello" "en" "es" PErr.auth (by decide)

/-- C5: a transcription result that trims to the empty string
short-circuits the pipeline: no `final` and no `error` frame is emitted,
no translation step is entered (`primaryCalls`/`fallbackCalls`
unchanged), the invocation completes (leaves the in-flight set), and the
session state returns to `listening`. -/
theorem c5_empty_transcript (sys : Sys) (n : Nat) (seg : List Chunk) (text : String)
    (hph : findPhase sys.inFlight n = some (FlushPhase.awaitTranscribe seg))
    (hempty : jsTrim text = "") :
    countFinals (step sys (Act.transcribeDone n (Except.ok text))).outLog
      = countFinals sys.outLog ∧
    countErrors (step sys (Act.transcribeDone n (Except.ok text))).outLog
      = countErrors sys.outLog ∧
    (step sys (Act.transcribeDone n (Except.ok text))).state = SState.listening ∧
    (step sys (Act.transcribeDone n (Except.ok text))).primaryCalls = sys.primaryCalls ∧
    (step sys (Act.transcribeDone n (Except.ok text))).fallbackCalls = sys.fallbackCalls ∧
    (step sys (Act.transcribeDone n (Except.ok text))).inFlight
      = removeFlushL sys.inFlight n := by
  have hs : step sys (Act.transcribeDone n (Except.ok text)) = finishEmpty sys n := by
    simp only [step, stepTranscribeDone, hph]
    rw [if_pos hempty]
  rw [hs]
  unfold finishEmpty finishFlush
  refine ⟨?_, ?_, ?_, ?_, ?_, ?_⟩
  · exact countFinals_updateState sys SState.listening
  · exact countErrors_updateState sys SState.listening
  · exact updateState_state sys SState.listening
  · exact updateState_primaryCalls sys SState.listening
  · exact updateState_fallbackCalls sys SState.listening
  · dsimp only
    rw [updateState_inFlight]

/-- C5 witness: a whitespace-only transcript for the in-flight flush. -/
theorem c5_empty_transcript_witness :
    (findPhase awaitingTranscribeSys.inFlight 0
        = some (FlushPhase.awaitTranscribe [⟨24000, 0⟩]) ∧ jsTrim "  " = "") ∧
    (countFinals (step awaitingTranscribeSys
        (Act.transcribeDone 0 (Except.ok "  "))).outLog
      = countFinals awaitingTranscribeSys.outLog ∧
     countErrors (step awaitingTranscribeSys
        (Act.transcribeDone 0 (Except.ok "  "))).outLog
      = countErrors awaitingTranscribeSys.outLog ∧
     (step awaitingTranscribeSys (Act.transcribeDone 0 (Except.ok "  "))).state
      = SState.listening ∧
     (step awaitingTranscribeSys (Act.transcribeDone 0 (Except.ok "  "))).primaryCalls
      = awaitingTranscribeSys.primaryCalls ∧
     (step awaitingTranscribeSys (Act.transcribeDone 0 (Except.ok "  "))).fallbackCalls
      = awaitingTranscribeSys.fallbackCalls ∧
     (step awaitingTranscribeSys (Act.transcribeDone 0 (Except.ok "  "))).inFlight
      = removeFlushL awaitingTranscribeSys.inFlight 0) := by
  refine ⟨⟨by decide, by decide⟩, ?_⟩
  exact c5_empty_transcript awaitingTranscribeSys 0 [⟨24000, 0⟩] "  " (by decide) (by decide)

/-! ## In-flight-set size lemmas (for C6, C7) -/

lemma setPhaseL_length (l : List Flush) (n : Nat) (ph : FlushPhase) :
    (setPhaseL l n ph).length = l.length := by
  induction l with
  | nil => rfl
  | cons f fs ih =>
    unfold setPhaseL
    split
    · rfl
    · rw [List.length_cons, List.length_cons, ih]

lemma startFlush_inFlight_ge (sys : Sys) :
    sys.inFlight.length ≤ (startFlush sys).inFlight.length := by
  unfold startFlush
  split
  · exact le_refl _
  · dsimp only
    rw [updateState_inFlight, List.length_append]
    exact Nat.le_add_right _ _

lemma processAudioChunk_inFlight_ge (sys : Sys) (n : Nat) :
    sys.inFlight.length ≤ (processAudioChunk sys n).inFlight.length := by
  unfold processAudioChunk
  split
  · exact le_refl _
  · dsimp only
    split
    · exact startFlush_inFlight_ge
        { sys with audioBuffer := sys.audioBuffer ++ [⟨n, sys.now⟩] }
    · exact le_refl _

lemma stepVadTimer_inFlight_ge (sys : Sys) :
    sys.inFlight.length ≤ (stepVadTimer sys).inFlight.length := by
  unfold stepVadTimer
  split
  · exact le_refl _
  · exact startFlush_inFlight_ge { sys with vadTimers := sys.vadTimers - 1 }

lemma handleVAD_inFlight (sys : Sys) (ev : String) :
    (handleVAD sys ev).inFlight = sys.inFlight := by
  unfold handleVAD
  dsimp only
  split
  · split <;> rfl
  · rfl

lemma stepPlayTimer_inFlight (sys : Sys) :
    (stepPlayTimer sys).inFlight = sys.inFlight := by
  unfold stepPlayTimer
  split
  · rfl
  · dsimp only
    split
    · exact updateState_inFlight _ _
    · rfl

lemma stepStart_inFlight (sys : Sys) (cfg : SessCfg) :
    (stepStart sys cfg).inFlight = sys.inFlight := by
  unfold stepStart
  split
  · rfl
  · exact updateState_inFlight _ _

lemma stepSweep_inFlight (sys : Sys) : (stepSweep sys).inFlight = sys.inFlight := by
  unfold stepSweep
  split <;> rfl

lemma stepTranscribeDone_clears (sys : Sys) (n : Nat) (r : Except PErr String)
    (h : (stepTranscribeDone sys n r).inFlight.length < sys.inFlight.length) :
    (stepTranscribeDone sys n r).audioBuffer = [] ∧
    (stepTranscribeDone sys n r).vadState = "silence" := by
  rcases hfp : findPhase sys.inFlight n with _ | ph
  · simp only [stepTranscribeDone, hfp] at h
    exact absurd h (lt_irrefl _)
  · cases ph with
    | awaitTranscribe seg =>
      cases r with
      | error e =>
        simp only [stepTranscribeDone, hfp]
        exact ⟨rfl, rfl⟩
      | ok text =>
        simp only [stepTranscribeDone, hfp] at h ⊢
        by_cases ht : jsTrim text = ""
        · rw [if_pos ht]
          exact ⟨rfl, rfl⟩
        · rw [if_neg ht]
          by_cases hd : detectLanguageFromText (jsTrim text)
              = getTargetLanguage (detectLanguageFromText (jsTrim text)) sys.cfg
          · rw [if_pos hd]
            exact ⟨rfl, rfl⟩
          · rw [if_neg ht, if_neg hd] at h
            dsimp only [setPhase] at h
            rw [setPhaseL_length] at h
            exact absurd h (lt_irrefl _)
    | awaitPrimary t d g =>
      simp only [stepTranscribeDone, hfp] at h
      exact absurd h (lt_irrefl _)
    | awaitFallback t d g =>
      simp only [stepTranscribeDone, hfp] at h
      exact absurd h (lt_irrefl _)

lemma stepPrimaryDone_clears (sys : Sys) (n : Nat) (r : Except PErr String)
    (h : (stepPrimaryDone sys n r).inFlight.length < sys.inFlight.length) :
    (stepPrimaryDone sys n r).audioBuffer = [] ∧
    (stepPrimaryDone sys n r).vadState = "silence" := by
  rcases hfp : findPhase sys.inFlight n with _ | ph
  · simp only [stepPrimaryDone, hfp] at h
    exact absurd h (lt_irrefl _)
  · cases ph with
    | awaitTranscribe seg =>
      simp only [stepPrimaryDone, hfp] at h
      exact absurd h (lt_irrefl _)
    | awaitPrimary t d g =>
      cases r with
      | error e =>
        simp only [stepPrimaryDone, hfp] at h
        dsimp only [setPhase] at h
        rw [setPhaseL_length] at h
        exact absurd h (lt_irrefl _)
      | ok tr =>
        simp only [stepPrimaryDone, hfp]
        exact ⟨rfl, rfl⟩
    | awaitFallback t d g =>
      simp only [stepPrimaryDone, hfp] at h
      exact absurd h (lt_irrefl _)

lemma stepFallbackDone_clears (sys : Sys) (n : Nat) (r : Except PErr String)
    (h : (stepFallbackDone sys n r).inFlight.length < sys.inFlight.length) :
    (stepFallbackDone sys n r).audioBuffer = [] ∧
    (stepFallbackDone sys n r).vadState = "silence" := by
  rcases hfp : findPhase sys.inFlight n with _ | ph
  · simp only [stepFallbackDone, hfp] at h
    exact absurd h (lt_irrefl _)
  · cases ph with
    | awaitTranscribe seg =>
      simp only [stepFallbackDone, hfp] at h
      exact absurd h (lt_irrefl _)
    | awaitPrimary t d g =>
      simp only [stepFallbackDone, hfp] at h
      exact absurd h (lt_irrefl _)
    | awaitFallback t d g =>
      cases r with
      | error e =>
        simp only [stepFallbackDone, hfp]
        exact ⟨rfl, rfl⟩
      | ok tr =>
        simp only [stepFallbackDone, hfp]
        exact ⟨rfl, rfl⟩

/-- C6 counterexample: right after a flush is dispatched — while its
transcription provider call is outstanding — the buffer still contains the
very chunk that was flushed (the source clears the buffer only in the
`finally`, i.e. after the provider calls return), contradicting "the
buffer is emptied ... before the pipeline's provider calls return". -/
theorem c6_buffer_not_cleared_at_dispatch :
    awaitingTranscribeSys.inFlight
      = [⟨0, FlushPhase.awaitTranscribe [⟨24000, 0⟩]⟩] ∧
    awaitingTranscribeSys.audioBuffer = [⟨24000, 0⟩] := by
  refine ⟨by decide, by decide⟩

/-- C6 amended: the buffer is emptied and `vadState` reset to `silence`
when (and only at the moment) a flush's pipeline invocation completes —
on every completion path: whenever a step removes an invocation from the
in-flight set, the resulting buffer is `[]` and `vadState` is `silence`.
While the flush is in flight, the buffer retains the flushed chunks (and
accumulates new ones, which the completion then discards). -/
theorem c6_cleared_on_completion (sys : Sys) (a : Act)
    (h : (step sys a).inFlight.length < sys.inFlight.length) :
    (step sys a).audioBuffer = [] ∧ (step sys a).vadState = "silence" := by
  cases a with
  | start cfg =>
    simp only [step] at h
    rw [stepStart_inFlight] at h
    exact absurd h (lt_irrefl _)
  | audio n =>
    simp only [step] at h
    split at h
    · exact absurd h (not_lt.mpr (processAudioChunk_inFlight_ge sys n))
    · exact absurd h (lt_irrefl _)
  | vad ev =>
    simp only [step] at h
    split at h
    · rw [handleVAD_inFlight] at h
      exact absurd h (lt_irrefl _)
    · exact absurd h (lt_irrefl _)
  | pause =>
    simp only [step] at h
    split at h
    · rw [updateState_inFlight] at h
      exact absurd h (lt_irrefl _)
    · exact absurd h (lt_irrefl _)
  | resume =>
    simp only [step] at h
    split at h
    · rw [updateState_inFlight] at h
      exact absurd h (lt_irrefl _)
    · exact absurd h (lt_irrefl _)
  | stop =>
    simp only [step] at h
    split at h
    · exact absurd h (lt_irrefl _)
    · exact absurd h (lt_irrefl _)
  | wsClose =>
    simp only [step] at h
    split at h
    · exact absurd h (lt_irrefl _)
    · exact absurd h (lt_irrefl _)
  | vadTimerFire =>
    simp only [step] at h
    exact absurd h (not_lt.mpr (stepVadTimer_inFlight_ge sys))
  | playTimerFire =>
    simp only [step] at h
    rw [stepPlayTimer_inFlight] at h
    exact absurd h (lt_irrefl _)
  | transcribeDone n r => exact stepTranscribeDone_clears sys n r h
  | primaryDone n r => exact stepPrimaryDone_clears sys n r h
  | fallbackDone n r => exact stepFallbackDone_clears sys n r h
  | tick d =>
    simp only [step] at h
    exact absurd h (lt_irrefl _)
  | sweep =>
    simp only [step] at h
    rw [stepSweep_inFlight] at h
    exact absurd h (lt_irrefl _)

/-- C6 amended witness: completing the in-flight flush (here with an empty
transcript) removes it and leaves a cleared buffer and `silence` marker. -/
theorem c6_cleared_on_completion_witness :
    ((step awaitingTranscribeSys (Act.transcribeDone 0 (Except.ok ""))).inFlight.length
        < awaitingTranscribeSys.inFlight.length) ∧
    ((step awaitingTranscribeSys (Act.transcribeDone 0 (Except.ok ""))).audioBuffer = [] ∧
     (step awaitingTranscribeSys (Act.transcribeDone 0 (Except.ok ""))).vadState
        = "silence") := by
  refine ⟨by decide, ?_⟩
  exact c6_cleared_on_completion awaitingTranscribeSys
    (Act.transcribeDone 0 (Except.ok "")) (by decide)

/-- C7 counterexample: with the session in `playing` (not `listening`),
a duration-threshold chunk still dispatches a pipeline flush —
`processAudioChunk` only guards against `paused`. -/
theorem c7_dispatch_while_playing :
    (run playingTrace).state = SState.playing ∧
    (step (run playingTrace) (Act.audio 24000)).inFlight.length
      = (run playingTrace).inFlight.length + 1 := by
  refine ⟨by decide, by decide⟩

/-- C7 amended: for a started session the duration trigger dispatches
exactly when the state is not `paused` (rather than only `listening`) and
the buffered duration reaches 1.5 s — or a VAD end is pending; a `paused`
session drops the chunk entirely; and a flush on an empty buffer is a
no-op.  (The buffer is emptied when the flush completes, not immediately —
see the C6 theorems.) -/
theorem c7_duration_trigger :
    (∀ sys n, sys.started = true → sys.state ≠ SState.paused →
      ((step sys (Act.audio n)).inFlight.length = sys.inFlight.length + 1 ↔
        (totalSamples (sys.audioBuffer ++ [⟨n, sys.now⟩]) * 1000 ≥ 1500 * effRate sys.cfg
          ∨ sys.vadState = "end_detected"))) ∧
    (∀ sys n, sys.state = SState.paused → step sys (Act.audio n) = sys) ∧
    (∀ sys, sys.audioBuffer = [] → startFlush sys = sys) := by
  refine ⟨?_, ?_, ?_⟩
  · intro sys n hst hnp
    simp only [step, hst, if_true]
    unfold processAudioChunk
    rw [if_neg hnp]
    dsimp only
    split
    · rename_i hcond
      constructor
      · intro _
        exact hcond
      · intro _
        unfold startFlush
        rw [if_neg (by simp)]
        dsimp only
        rw [updateState_inFlight, List.length_append]
        rfl
    · rename_i hcond
      dsimp only
      constructor
      · intro hlen
        exact absurd hlen (by omega)
      · intro hc
        exact absurd hc hcond
  · intro sys n hp
    simp only [step]
    split
    · unfold processAudioChunk
      rw [if_pos hp]
    · rfl
  · intro sys h
    unfold startFlush
    rw [if_pos h]

/-- C7 amended witness: a fresh listening session, one 1.5 s chunk — the
threshold is met and one flush is dispatched. -/
theorem c7_duration_trigger_witness :
    ((run [Act.start cfg0]).started = true ∧
      (run [Act.start cfg0]).state ≠ SState.paused) ∧
    ((step (run [Act.start cfg0]) (Act.audio 24000)).inFlight.length
        = (run [Act.start cfg0]).inFlight.length + 1 ↔
      (totalSamples ((run [Act.start cfg0]).audioBuffer
            ++ [⟨24000, (run [Act.start cfg0]).now⟩]) * 1000
          ≥ 1500 * effRate (run [Act.start cfg0]).cfg
        ∨ (run [Act.start cfg0]).vadState = "end_detected")) := by
  refine ⟨⟨by decide, by decide⟩, ?_⟩
  exact c7_duration_trigger.1 (run [Act.start cfg0]) 24000 (by decide) (by decide)

/-- C8 counterexample: an inbound `audio` frame arriving at t = 5000 ms
(below the flush threshold) is buffered but does NOT refresh
`lastActivity`, which stays at 0 — `lastActivity` is only touched inside
`send`, i.e. on outbound delivery. -/
theorem c8_inbound_does_not_touch_lastActivity :
    (run [Act.start cfg0, Act.tick 5000, Act.audio 100]).lastActivity = 0 ∧
    (run [Act.start cfg0, Act.tick 5000, Act.audio 100]).now = 5000 ∧
    (run [Act.start cfg0, Act.tick 5000, Act.audio 100]).audioBuffer.length = 1 := by
  refine ⟨by decide, by decide, by decide⟩

/-- C8 amended: `lastActivity` is refreshed exactly by outbound delivery
(`send` with the socket open and the session active); an inbound audio
frame that triggers no flush leaves it untouched (inbound frames refresh
it only via the outbound messages they cause); and the periodic sweep
deregisters precisely the sessions idle beyond the 30-minute threshold. -/
theorem c8_lastActivity_and_sweep :
    (∀ sys m, sys.wsOpen = true → sys.isActive = true →
      (sendMsg sys m).lastActivity = sys.now) ∧
    (∀ sys n, sys.state ≠ SState.paused →
      ¬(totalSamples (sys.audioBuffer ++ [⟨n, sys.now⟩]) * 1000 ≥ 1500 * effRate sys.cfg) →
      sys.vadState ≠ "end_detected" →
      (step sys (Act.audio n)).lastActivity = sys.lastActivity) ∧
    (∀ sys, (step sys Act.sweep).inRegistry = false ↔
      (sys.inRegistry = false ∨ sys.now - sys.lastActivity > IDLE_TIMEOUT_MS)) := by
  refine ⟨?_, ?_, ?_⟩
  · intro sys m hws hact
    unfold sendMsg
    rw [if_pos ⟨hws, hact⟩]
  · intro sys n hnp hdur hvad
    simp only [step]
    split
    · unfold processAudioChunk
      rw [if_neg hnp]
      dsimp only
      rw [if_neg ?_]
      rintro (hc | hc)
      · exact hdur hc
      · exact hvad hc
    · rfl
  · intro sys
    simp only [step]
    unfold stepSweep
    split
    · rename_i hcond
      simp only [eq_self_iff_true, true_iff]
      exact Or.inr hcond.2
    · rename_i hcond
      by_cases hreg : sys.inRegistry = false
      · simp only [hreg, true_or, iff_true]
      · constructor
        · intro hc
          exact absurd hc hreg
        · rintro (hc | hc)
          · exact hc
          · exact absurd ⟨by revert hreg; cases sys.inRegistry <;> simp, hc⟩ hcond

/-- C8 amended witness: instantiates the inbound-audio clause on a fresh
session with a sub-threshold chunk. -/
theorem c8_lastActivity_and_sweep_witness :
    ((run [Act.start cfg0, Act.tick 5000]).state ≠ SState.paused ∧
      ¬(totalSamples ((run [Act.start cfg0, Act.tick 5000]).audioBuffer
            ++ [⟨100, (run [Act.start cfg0, Act.tick 5000]).now⟩]) * 1000
          ≥ 1500 * effRate (run [Act.start cfg0, Act.tick 5000]).cfg) ∧
      (run [Act.start cfg0, Act.tick 5000]).vadState ≠ "end_detected") ∧
    (step (run [Act.start cfg0, Act.tick 5000]) (Act.audio 100)).lastActivity
      = (run [Act.start cfg0, Act.tick 5000]).lastActivity := by
  refine ⟨⟨by decide, by decide, by decide⟩, ?_⟩
  exact c8_lastActivity_and_sweep.2.1 (run [Act.start cfg0, Act.tick 5000]) 100
    (by decide) (by decide) (by decide)

end Verblizr

